import Mathlib

/-!
Verification of the WalletLinkProvider core (src/js/src/WalletLinkProvider.ts):
the request classifier/dispatcher, the authorized-address store, transaction
parameter normalization, the relay-backed handlers and the remote RPC fallback.

The provider is embedded shallowly: JavaScript exceptions become `Except`,
the relay / filter-polyfill / storage / fetch collaborators become an
environment record of predetermined responses, and the side effects the
provider performs (window management, relay calls, storage writes, event
emission, network fetch) are recorded in an explicit effect trace.
-/

deriving instance DecidableEq for Except

namespace WalletLink

/-- A primitive JavaScript value as it appears in request parameters and
transaction fields (null, boolean, number, string). -/
inductive Prim where
  | vNull
  | vBool (b : Bool)
  | vNum (n : Int)
  | vStr (s : String)
deriving DecidableEq, Repr

/-- JavaScript truthiness of a primitive value. -/
def truthyPrim : Prim → Bool
  | .vNull => false
  | .vBool b => b
  | .vNum n => n != 0
  | .vStr s => s != ""

/-- Truthiness of a possibly-undefined value (`none` is `undefined`). -/
def optTruthy : Option Prim → Bool
  | none => false
  | some p => truthyPrim p

/-- The JavaScript `x != null` test: false exactly for `undefined` and `null`. -/
def notNullish : Option Prim → Bool
  | none => false
  | some .vNull => false
  | some _ => true

/-- The loosely-typed transaction object accepted by
`_prepareTransactionParams` (each field possibly absent = `undefined`). -/
structure TxInput where
  fromV : Option Prim := none
  toV : Option Prim := none
  gasPriceV : Option Prim := none
  gasV : Option Prim := none
  valueV : Option Prim := none
  dataV : Option Prim := none
  nonceV : Option Prim := none
deriving DecidableEq, Repr

/-- A request parameter: a primitive or a transaction-shaped object. -/
inductive ReqParam where
  | prim (p : Prim)
  | obj (tx : TxInput)
deriving DecidableEq, Repr

/-- A result value carried by a JSON-RPC response. -/
inductive RespValue where
  | prim (p : Prim)
  | strList (xs : List String)
deriving DecidableEq, Repr

/-- The error object inside a JSON-RPC response body
(`{code, message, data?}`; an absent code is `none`, an absent or empty
message is the empty string, both being falsy in the source). -/
structure RpcErrorObj where
  code : Option Int := none
  message : String := ""
  data : Option RespValue := none
deriving DecidableEq, Repr

/-- A JavaScript error as thrown by the provider: message, and for
`ProviderError` a numeric code and optional data. -/
structure JSError where
  message : String
  code : Option Int := none
  data : Option RespValue := none
deriving DecidableEq, Repr

/-- JSON-RPC request (the constant `jsonrpc: "2.0"` field is omitted). -/
structure JSONRPCRequest where
  id : Int
  method : String
  params : List ReqParam := []
deriving DecidableEq, Repr

/-- JSON-RPC response (the constant `jsonrpc: "2.0"` field is omitted);
`result = none` is an absent/undefined result. -/
structure JSONRPCResponse where
  id : Int
  result : Option RespValue := none
  error : Option RpcErrorObj := none
deriving DecidableEq, Repr

/-- Modelled from the spec: the `ProviderErrorCode` enum lives in a types
module that is not under src/; the spec only requires the codes for
Unauthorized, UserDeniedAccountAccess and UserDeniedSignature to be
distinct, so the concrete numbers here are representative. -/
def UNAUTHORIZED_CODE : Int := 1000

/-- Modelled from the spec: see `UNAUTHORIZED_CODE`. -/
def USER_DENIED_REQUEST_ACCOUNTS_CODE : Int := 1001

/-- Modelled from the spec: see `UNAUTHORIZED_CODE`. -/
def USER_DENIED_REQUEST_SIGNATURE_CODE : Int := 1002

/-- `ProviderError("Unauthorized", ProviderErrorCode.UNAUTHORIZED)`. -/
def unauthorizedError : JSError :=
  { message := "Unauthorized", code := some UNAUTHORIZED_CODE }

/-- `ProviderError("User denied account authorization", USER_DENIED_REQUEST_ACCOUNTS)`. -/
def userDeniedAccountsError : JSError :=
  { message := "User denied account authorization",
    code := some USER_DENIED_REQUEST_ACCOUNTS_CODE }

/-- `ProviderError("User denied message signature", USER_DENIED_REQUEST_SIGNATURE)`. -/
def userDeniedMessageSignatureError : JSError :=
  { message := "User denied message signature",
    code := some USER_DENIED_REQUEST_SIGNATURE_CODE }

/-- `ProviderError("User denied transaction signature", USER_DENIED_REQUEST_SIGNATURE)`. -/
def userDeniedTransactionSignatureError : JSError :=
  { message := "User denied transaction signature",
    code := some USER_DENIED_REQUEST_SIGNATURE_CODE }

/-- Does the character list start with the pattern? -/
def listStartsWith : List Char → List Char → Bool
  | _, [] => true
  | [], _ :: _ => false
  | a :: as, b :: bs => a == b && listStartsWith as bs

/-- Does the pattern occur as a contiguous sublist of the haystack? -/
def containsSubList (pat : List Char) : List Char → Bool
  | [] => listStartsWith [] pat
  | c :: rest => listStartsWith (c :: rest) pat || containsSubList pat rest

/-- The denial test `err.message.match(/(denied|rejected)/i)`:
case-insensitive containment of "denied" or "rejected". -/
def matchesDenialPattern (msg : String) : Bool :=
  let low := msg.data.map Char.toLower
  containsSubList "denied".data low || containsSubList "rejected".data low

/-- Hex digit test (both cases). -/
def isHexDigitChar (c : Char) : Bool :=
  c.isDigit || (('a' ≤ c) && (c ≤ 'f')) || (('A' ≤ c) && (c ≤ 'F'))

/-- Strip a leading "0x"/"0X" from a character list, if present. -/
def stripHexLead : List Char → List Char
  | '0' :: 'x' :: rest => rest
  | '0' :: 'X' :: rest => rest
  | l => l

/-- Modelled from the spec: `ensureAddressString` lives in `util.ts`, which
is not under src/. Per the spec, each address is validated (40 hex digits
with an optional 0x lead) and normalized in case/format (here: lowercase,
0x-prefixed) before acceptance; anything else is an `InvalidInput` error. -/
def ensureAddressStr (s : String) : Except JSError String :=
  let body := stripHexLead s.data
  if body.length = 40 && body.all isHexDigitChar then
    .ok (String.mk ('0' :: 'x' :: body.map Char.toLower))
  else
    .error { message := "Invalid Ethereum address" }

/-- `ensureAddressString` applied to an arbitrary value: only strings pass. -/
def ensureAddressPrim : Prim → Except JSError String
  | .vStr s => ensureAddressStr s
  | _ => .error { message := "Invalid Ethereum address" }

/-- `ensureAddressString` applied to a possibly-undefined parameter. -/
def ensureAddressOptPrim : Option Prim → Except JSError String
  | some p => ensureAddressPrim p
  | none => .error { message := "Invalid Ethereum address" }

/-- `ensureAddressString` applied to a request parameter slot. -/
def ensureAddressParam : Option ReqParam → Except JSError String
  | some (.prim p) => ensureAddressPrim p
  | _ => .error { message := "Invalid Ethereum address" }

/-- Numeric value of a hex digit. -/
def hexDigitVal (c : Char) : Nat :=
  if c.isDigit then c.toNat - 48
  else if ('a' ≤ c) && (c ≤ 'f') then c.toNat - 87
  else c.toNat - 55

/-- Parse a non-empty list of hex digits as a natural number. -/
def parseHexNat : List Char → Option Nat
  | [] => none
  | l => if l.all isHexDigitChar then some (l.foldl (fun acc c => acc * 16 + hexDigitVal c) 0) else none

/-- Parse a non-empty list of decimal digits as a natural number. -/
def parseDecNat : List Char → Option Nat
  | [] => none
  | l => if l.all Char.isDigit then some (l.foldl (fun acc c => acc * 10 + (c.toNat - 48)) 0) else none

/-- Modelled from the spec: `ensureBN` lives in `util.ts`, which is not
under src/. Per the spec, numeric-like fields accept hex-string,
decimal-string, or native-number representations and must parse as
non-negative integers; malformed values fail with `InvalidInput`. -/
def ensureBNPrim : Prim → Except JSError Nat
  | .vNum n => if 0 ≤ n then .ok n.toNat else .error { message := "Invalid BN" }
  | .vStr s =>
      match s.data with
      | '0' :: 'x' :: rest =>
          match parseHexNat rest with
          | some n => .ok n
          | none => .error { message := "Invalid BN" }
      | l =>
          match parseDecNat l with
          | some n => .ok n
          | none => .error { message := "Invalid BN" }
  | _ => .error { message := "Invalid BN" }

/-- `ensureBN` applied to a possibly-undefined field. -/
def ensureBNOptPrim : Option Prim → Except JSError Nat
  | some p => ensureBNPrim p
  | none => .error { message := "Invalid BN" }

/-- Modelled from the spec: `ensureIntNumber` lives in `util.ts`, which is
not under src/. Per the spec a nonce is an optional non-negative integer
accepted in the same numeric-like representations. -/
def ensureIntOptPrim : Option Prim → Except JSError Nat
  | some p => ensureBNPrim p
  | none => .error { message := "Invalid int" }

/-- Modelled from the spec: `ensureBuffer` lives in `util.ts`, which is not
under src/. A byte string is given as hex (optional 0x lead, even length);
the buffer is represented by its normalized lowercase hex body, the empty
string being the empty buffer. -/
def ensureBufferStr (s : String) : Except JSError String :=
  let body := stripHexLead s.data
  if body.all isHexDigitChar && body.length % 2 = 0 then
    .ok (String.mk (body.map Char.toLower))
  else
    .error { message := "Invalid buffer" }

/-- `ensureBuffer` applied to an arbitrary primitive. -/
def ensureBufferPrim : Prim → Except JSError String
  | .vStr s => ensureBufferStr s
  | _ => .error { message := "Invalid buffer" }

/-- `ensureBuffer` applied to a possibly-undefined field. -/
def ensureBufferOptPrim : Option Prim → Except JSError String
  | some p => ensureBufferPrim p
  | none => .error { message := "Invalid buffer" }

/-- `ensureBuffer` applied to a request parameter slot. -/
def ensureBufferParam : Option ReqParam → Except JSError String
  | some (.prim p) => ensureBufferPrim p
  | _ => .error { message := "Invalid buffer" }

/-- Modelled from the spec: `ensureHexString` lives in `util.ts`, which is
not under src/. Filter ids are hex strings, normalized to lowercase. -/
def ensureHexParam : Option ReqParam → Except JSError String
  | some (.prim (.vStr s)) =>
      let body := stripHexLead s.data
      if body.all isHexDigitChar then
        .ok (String.mk ('0' :: 'x' :: body.map Char.toLower))
      else
        .error { message := "Invalid hex string" }
  | _ => .error { message := "Invalid hex string" }

/-- A handle to the linking window; `hasOpener` models the truthiness of
`window.opener` used to decide focus-versus-reopen. -/
structure WindowHandle where
  hasOpener : Bool
deriving DecidableEq, Repr

/-- The provider's mutable and configured state: construction-time
configuration (`appName`, `chainId`, `jsonRpcUrl`, the derived
`providerId`), the authorized address list, the tracked linking window,
and the injected storage's contents. -/
structure ProviderState where
  appName : String := "DApp"
  chainId : Nat := 1
  jsonRpcUrl : String := "https://node.example"
  providerId : String := "0000000000"
  addresses : List String := []
  walletLinkWindow : Option WindowHandle := none
  storage : List (String × List String) := []
deriving DecidableEq, Repr

/-- The per-identity storage key `WalletLinkProvider:<providerId>:addresses`. -/
def localStorageAddressesKey (st : ProviderState) : String :=
  "WalletLinkProvider:" ++ st.providerId ++ ":addresses"

/-- `selectedAddress`: `this._addresses[0] || undefined`. -/
def selectedAddress (st : ProviderState) : Option String :=
  match st.addresses.head? with
  | some a => if a = "" then none else some a
  | none => none

/-- `networkVersion` / `_net_version`: `this._chainId.toString(10)`. -/
def netVersion (st : ProviderState) : String :=
  toString st.chainId

/-- The canonical transaction request produced by
`_prepareTransactionParams` (`EthereumTransactionParams`); the data
buffer is its normalized hex body. -/
structure EthereumTransactionParams where
  fromAddress : String
  toAddress : Option String
  weiValue : Nat
  data : String
  nonce : Option Nat
  gasPriceInWei : Option Nat
  gasLimit : Option Nat
  chainId : Nat
deriving DecidableEq, Repr

/-- The observable side effects of a provider call, in order. -/
inductive Eff where
  | openLinkWindow
  | focusLinkWindow
  | closeLinkWindow
  | focusCallerWindow
  | relayRequestAccounts (appName : String)
  | relaySignMessage (message : String) (address : String) (addPfx : Bool)
  | relayRecoverAddress (message : String) (signature : String) (addPfx : Bool)
  | relaySignTx (tx : EthereumTransactionParams)
  | relaySignAndSubmitTx (tx : EthereumTransactionParams)
  | relaySubmitRawTx (signedTx : String) (chainId : Nat)
  | fetchRemote (url : String) (method : String)
  | emitAccountsChanged (addrs : List String)
  | storageWrite (key : String) (addrs : List String)
deriving DecidableEq, Repr

/-- How the remote RPC fallback's single fetch turns out: a transport or
JSON-parse rejection, or a parsed body (`none` being a falsy parsed body). -/
inductive FetchOutcome where
  | networkFailure (e : JSError)
  | parsed (body : Option JSONRPCResponse)

/-- The environment of collaborator responses: what the Relay Delegate,
the filter polyfill, storage and the network would answer. Relay and
filter internals are out of scope per the spec, so their replies are
inputs here. -/
structure RelayEnv where
  openWindowHandle : WindowHandle := { hasOpener := true }
  requestAccountsResp : Except JSError (Option (List String)) := .ok (some [])
  signMessageResp : Except JSError RespValue := .ok (.prim .vNull)
  recoverResp : Except JSError RespValue := .ok (.prim .vNull)
  signTxResp : Except JSError RespValue := .ok (.prim .vNull)
  submitRawTxResp : Except JSError RespValue := .ok (.prim .vNull)
  signAndSubmitResp : Except JSError RespValue := .ok (.prim .vNull)
  storageWriteFails : Bool := false
  uninstallFilterResp : Bool := true
  newFilterResp : Except JSError RespValue := .ok (.prim .vNull)
  newBlockFilterResp : Except JSError RespValue := .ok (.prim .vNull)
  newPendingTxFilterResp : Except JSError RespValue := .ok (.prim .vNull)
  getFilterChangesResp : Except JSError JSONRPCResponse := .ok { id := 0 }
  getFilterLogsResp : Except JSError JSONRPCResponse := .ok { id := 0 }
  fetchResp : FetchOutcome := .parsed none

/-- Outcome of a handler: the result (or thrown error), the provider state
after the call, and the effect trace. -/
structure HOut where
  result : Except JSError JSONRPCResponse
  st : ProviderState
  trace : List Eff

/-- Map a fallible function over a list, stopping at the first error: the
semantics of `Array.prototype.map` with a throwing callback, and of
`Promise.all` over already-started element promises. -/
def exceptMapList {α β ε : Type} (f : α → Except ε β) : List α → Except ε (List β)
  | [] => .ok []
  | a :: as =>
      match f a with
      | .error e => .error e
      | .ok b =>
          match exceptMapList f as with
          | .error e => .error e
          | .ok bs => .ok (b :: bs)

/-- `_setAddresses(addresses, persist)`: validate and normalize every
entry (the whole call fails on the first invalid one, before any state
change), replace the in-memory list, persist it under the per-identity
key when asked (a storage write failure, `env.storageWriteFails`, is
swallowed), and emit the "accountsChanged" notification. Returns the new
state and the effect list, or the thrown error. -/
def setAddresses (env : RelayEnv) (st : ProviderState) (input : List String)
    (persist : Bool) : Except JSError (ProviderState × List Eff) :=
  match exceptMapList ensureAddressStr input with
  | .error e => .error e
  | .ok addrs =>
      let st1 := { st with addresses := addrs }
      let key := localStorageAddressesKey st
      let st2 :=
        if persist && !env.storageWriteFails then
          { st1 with storage := (key, addrs) :: st1.storage }
        else st1
      let effs :=
        (if persist then [Eff.storageWrite key addrs] else []) ++
          [Eff.emitAccountsChanged addrs]
      .ok (st2, effs)

/-- `_setAddresses` as observed by the caller: on a thrown error the
provider state is unchanged and nothing was emitted. -/
def setAddressesCall (env : RelayEnv) (st : ProviderState) (input : List String)
    (persist : Bool) : Except JSError Unit × ProviderState × List Eff :=
  match setAddresses env st input persist with
  | .error e => (.error e, st, [])
  | .ok (st', effs) => (.ok (), st', effs)

/-- `_eth_accounts`: the authorized address list. -/
def eth_accounts (st : ProviderState) : List String :=
  st.addresses

/-- `_eth_coinbase`: `this.selectedAddress || null`. -/
def eth_coinbase (st : ProviderState) : RespValue :=
  match selectedAddress st with
  | some a => .prim (.vStr a)
  | none => .prim .vNull

/-- `_eth_uninstallFilter`: validate the filter id, then ask the filter
polyfill (whose answer is `env.uninstallFilterResp`; the polyfill itself
is out of scope). -/
def eth_uninstallFilter (env : RelayEnv) (params : List ReqParam) :
    Except JSError Bool :=
  match ensureHexParam (params.get? 0) with
  | .error e => .error e
  | .ok _ => .ok env.uninstallFilterResp

/-- `_prepareTransactionParams`: resolve the from-address (explicit field
when truthy, else the selected address), require it to be authorized,
then validate/coerce the remaining fields with their defaults and attach
the provider's chain id. -/
def prepareTransactionParams (st : ProviderState) (tx : TxInput) :
    Except JSError EthereumTransactionParams :=
  match
    (if optTruthy tx.fromV then (ensureAddressOptPrim tx.fromV).map some
     else .ok (selectedAddress st) : Except JSError (Option String)) with
  | .error e => .error e
  | .ok fromOpt =>
      match fromOpt with
      | none => .error { message := "Ethereum address is unavailable" }
      | some fromAddress =>
          if fromAddress = "" then
            .error { message := "Ethereum address is unavailable" }
          else if !(st.addresses.contains fromAddress) then
            .error { message := "Unknown Ethereum address" }
          else
            match
              (if optTruthy tx.toV then (ensureAddressOptPrim tx.toV).map some
               else .ok none : Except JSError (Option String)) with
            | .error e => .error e
            | .ok toAddress =>
                match
                  (if notNullish tx.valueV then ensureBNOptPrim tx.valueV
                   else .ok 0 : Except JSError Nat) with
                | .error e => .error e
                | .ok weiValue =>
                    match
                      (if optTruthy tx.dataV then ensureBufferOptPrim tx.dataV
                       else .ok "" : Except JSError String) with
                    | .error e => .error e
                    | .ok data =>
                        match
                          (if notNullish tx.nonceV then (ensureIntOptPrim tx.nonceV).map some
                           else .ok none : Except JSError (Option Nat)) with
                        | .error e => .error e
                        | .ok nonce =>
                            match
                              (if notNullish tx.gasPriceV then (ensureBNOptPrim tx.gasPriceV).map some
                               else .ok none : Except JSError (Option Nat)) with
                            | .error e => .error e
                            | .ok gasPriceInWei =>
                                match
                                  (if notNullish tx.gasV then (ensureBNOptPrim tx.gasV).map some
                                   else .ok none : Except JSError (Option Nat)) with
                                | .error e => .error e
                                | .ok gasLimit =>
                                    .ok { fromAddress := fromAddress,
                                          toAddress := toAddress,
                                          weiValue := weiValue,
                                          data := data,
                                          nonce := nonce,
                                          gasPriceInWei := gasPriceInWei,
                                          gasLimit := gasLimit,
                                          chainId := st.chainId }

/-- `(params[0] as any) || {}`: a transaction object parameter, or the
empty object when the slot is absent or not object-shaped (field access
on a primitive yields `undefined`, like on `{}`). -/
def txInputOfParam : Option ReqParam → TxInput
  | some (.obj tx) => tx
  | _ => {}

/-- `_eth_requestAccounts`: short-circuit on a cached non-empty address
list; otherwise focus or open the linking window, ask the Relay Delegate
for accounts (the `finally` block always closes the window and refocuses
the caller), remap denial-pattern rejections to
`UserDeniedAccountAccess`, reject an absent account list, and commit the
received list with persistence enabled. -/
def eth_requestAccounts (env : RelayEnv) (st : ProviderState) : HOut :=
  if st.addresses.length > 0 then
    { result := .ok { id := 0, result := some (.strList st.addresses) },
      st := st, trace := [] }
  else
    let opened : ProviderState × List Eff :=
      match st.walletLinkWindow with
      | some w =>
          if w.hasOpener then (st, [Eff.focusLinkWindow])
          else ({ st with walletLinkWindow := some env.openWindowHandle },
                [Eff.openLinkWindow])
      | none =>
          ({ st with walletLinkWindow := some env.openWindowHandle },
           [Eff.openLinkWindow])
    let st1 := opened.1
    let tr1 := opened.2 ++ [Eff.relayRequestAccounts st1.appName]
    let closed : ProviderState × List Eff :=
      match st1.walletLinkWindow with
      | some _ =>
          ({ st1 with walletLinkWindow := none },
           [Eff.closeLinkWindow, Eff.focusCallerWindow])
      | none => (st1, [])
    let st2 := closed.1
    let tr2 := tr1 ++ closed.2
    match env.requestAccountsResp with
    | .error err =>
        { result := .error
            (if matchesDenialPattern err.message then userDeniedAccountsError else err),
          st := st2, trace := tr2 }
    | .ok none =>
        { result := .error { message := "accounts received is empty" },
          st := st2, trace := tr2 }
    | .ok (some accts) =>
        match setAddresses env st2 accts true with
        | .error e => { result := .error e, st := st2, trace := tr2 }
        | .ok (st3, effs) =>
            { result := .ok { id := 0, result := some (.strList st3.addresses) },
              st := st3, trace := tr2 ++ effs }

/-- `_eth_sign(params)`: require authorization, validate
`params[1]` (message) and `params[0]` (address), delegate to the relay,
and remap denial-pattern rejections to `UserDeniedSignature`. -/
def eth_sign (env : RelayEnv) (st : ProviderState) (params : List ReqParam) : HOut :=
  if st.addresses.length = 0 then
    { result := .error unauthorizedError, st := st, trace := [] }
  else
    match ensureBufferParam (params.get? 1) with
    | .error e => { result := .error e, st := st, trace := [] }
    | .ok message =>
        match ensureAddressParam (params.get? 0) with
        | .error e => { result := .error e, st := st, trace := [] }
        | .ok address =>
            let tr := [Eff.relaySignMessage message address false]
            match env.signMessageResp with
            | .ok v =>
                { result := .ok { id := 0, result := some v }, st := st, trace := tr }
            | .error err =>
                { result := .error
                    (if matchesDenialPattern err.message then
                       userDeniedMessageSignatureError
                     else err),
                  st := st, trace := tr }

/-- `_personal_sign(params)`: like `_eth_sign` but with
`params[0]` = message, `params[1]` = address, and the personal-sign
message prefix enabled. -/
def personal_sign (env : RelayEnv) (st : ProviderState) (params : List ReqParam) : HOut :=
  if st.addresses.length = 0 then
    { result := .error unauthorizedError, st := st, trace := [] }
  else
    match ensureBufferParam (params.get? 0) with
    | .error e => { result := .error e, st := st, trace := [] }
    | .ok message =>
        match ensureAddressParam (params.get? 1) with
        | .error e => { result := .error e, st := st, trace := [] }
        | .ok address =>
            let tr := [Eff.relaySignMessage message address true]
            match env.signMessageResp with
            | .ok v =>
                { result := .ok { id := 0, result := some v }, st := st, trace := tr }
            | .error err =>
                { result := .error
                    (if matchesDenialPattern err.message then
                       userDeniedMessageSignatureError
                     else err),
                  st := st, trace := tr }

/-- `_eth_ecRecover(params)`: no authorization required; delegate to the
relay without denial remapping. -/
def eth_ecRecover (env : RelayEnv) (st : ProviderState) (params : List ReqParam) : HOut :=
  match ensureBufferParam (params.get? 0) with
  | .error e => { result := .error e, st := st, trace := [] }
  | .ok message =>
      match ensureBufferParam (params.get? 1) with
      | .error e => { result := .error e, st := st, trace := [] }
      | .ok signature =>
          let tr := [Eff.relayRecoverAddress message signature false]
          match env.recoverResp with
          | .ok v => { result := .ok { id := 0, result := some v }, st := st, trace := tr }
          | .error err => { result := .error err, st := st, trace := tr }

/-- `_personal_ecRecover(params)`: as `_eth_ecRecover` with the
personal-sign prefix enabled. -/
def personal_ecRecover (env : RelayEnv) (st : ProviderState) (params : List ReqParam) : HOut :=
  match ensureBufferParam (params.get? 0) with
  | .error e => { result := .error e, st := st, trace := [] }
  | .ok message =>
      match ensureBufferParam (params.get? 1) with
      | .error e => { result := .error e, st := st, trace := [] }
      | .ok signature =>
          let tr := [Eff.relayRecoverAddress message signature true]
          match env.recoverResp with
          | .ok v => { result := .ok { id := 0, result := some v }, st := st, trace := tr }
          | .error err => { result := .error err, st := st, trace := tr }

/-- `_eth_signTransaction(params)`: require authorization, normalize
`params[0]`, delegate to the relay, remap denial rejections to
`UserDeniedSignature`. -/
def eth_signTransaction (env : RelayEnv) (st : ProviderState) (params : List ReqParam) : HOut :=
  if st.addresses.length = 0 then
    { result := .error unauthorizedError, st := st, trace := [] }
  else
    match prepareTransactionParams st (txInputOfParam (params.get? 0)) with
    | .error e => { result := .error e, st := st, trace := [] }
    | .ok tx =>
        let tr := [Eff.relaySignTx tx]
        match env.signTxResp with
        | .ok v => { result := .ok { id := 0, result := some v }, st := st, trace := tr }
        | .error err =>
            { result := .error
                (if matchesDenialPattern err.message then
                   userDeniedTransactionSignatureError
                 else err),
              st := st, trace := tr }

/-- `_eth_sendRawTransaction(params)`: no authorization required;
delegate the signed bytes and the chain id to the relay, no denial
remapping. -/
def eth_sendRawTransaction (env : RelayEnv) (st : ProviderState) (params : List ReqParam) : HOut :=
  match ensureBufferParam (params.get? 0) with
  | .error e => { result := .error e, st := st, trace := [] }
  | .ok signedTx =>
      let tr := [Eff.relaySubmitRawTx signedTx st.chainId]
      match env.submitRawTxResp with
      | .ok v => { result := .ok { id := 0, result := some v }, st := st, trace := tr }
      | .error err => { result := .error err, st := st, trace := tr }

/-- `_eth_sendTransaction(params)`: require authorization, normalize
`params[0]`, delegate sign-and-submit to the relay, remap denial
rejections to `UserDeniedSignature`. -/
def eth_sendTransaction (env : RelayEnv) (st : ProviderState) (params : List ReqParam) : HOut :=
  if st.addresses.length = 0 then
    { result := .error unauthorizedError, st := st, trace := [] }
  else
    match prepareTransactionParams st (txInputOfParam (params.get? 0)) with
    | .error e => { result := .error e, st := st, trace := [] }
    | .ok tx =>
        let tr := [Eff.relaySignAndSubmitTx tx]
        match env.signAndSubmitResp with
        | .ok v => { result := .ok { id := 0, result := some v }, st := st, trace := tr }
        | .error err =>
            { result := .error
                (if matchesDenialPattern err.message then
                   userDeniedTransactionSignatureError
                 else err),
              st := st, trace := tr }

/-- The synchronous method table (the cases of `_handleSynchronousMethods`). -/
def syncMethods : List String :=
  ["eth_accounts", "eth_coinbase", "eth_uninstallFilter", "net_version"]

/-- The filter method table (the cases of `_handleAsynchronousFilterMethods`). -/
def filterMethods : List String :=
  ["eth_newFilter", "eth_newBlockFilter", "eth_newPendingTransactionFilter",
   "eth_getFilterChanges", "eth_getFilterLogs"]

/-- The relay-backed method table (the cases of `_handleAsynchronousMethods`
before the remote fallback). -/
def relayMethods : List String :=
  ["eth_requestAccounts", "eth_sign", "eth_ecRecover", "personal_sign",
   "personal_ecRecover", "eth_signTransaction", "eth_sendRawTransaction",
   "eth_sendTransaction"]

/-- `_handleSynchronousMethods`: a defined result for the four synchronous
methods, `undefined` (`none`) for everything else. -/
def handleSynchronousMethods (env : RelayEnv) (st : ProviderState)
    (req : JSONRPCRequest) : Except JSError (Option RespValue) :=
  if req.method = "eth_accounts" then
    .ok (some (.strList (eth_accounts st)))
  else if req.method = "eth_coinbase" then
    .ok (some (eth_coinbase st))
  else if req.method = "eth_uninstallFilter" then
    match eth_uninstallFilter env req.params with
    | .error e => .error e
    | .ok b => .ok (some (.prim (.vBool b)))
  else if req.method = "net_version" then
    .ok (some (.prim (.vStr (netVersion st))))
  else
    .ok none

/-- The filter handlers delegate to the filter polyfill, whose internals
are out of scope; its replies come from the environment. -/
def eth_newFilter (env : RelayEnv) (st : ProviderState) : HOut :=
  match env.newFilterResp with
  | .ok v => { result := .ok { id := 0, result := some v }, st := st, trace := [] }
  | .error e => { result := .error e, st := st, trace := [] }

/-- `_eth_newBlockFilter`. -/
def eth_newBlockFilter (env : RelayEnv) (st : ProviderState) : HOut :=
  match env.newBlockFilterResp with
  | .ok v => { result := .ok { id := 0, result := some v }, st := st, trace := [] }
  | .error e => { result := .error e, st := st, trace := [] }

/-- `_eth_newPendingTransactionFilter`. -/
def eth_newPendingTransactionFilter (env : RelayEnv) (st : ProviderState) : HOut :=
  match env.newPendingTxFilterResp with
  | .ok v => { result := .ok { id := 0, result := some v }, st := st, trace := [] }
  | .error e => { result := .error e, st := st, trace := [] }

/-- `_eth_getFilterChanges`: validate the filter id, then return the
polyfill's response unchanged. -/
def eth_getFilterChanges (env : RelayEnv) (st : ProviderState)
    (params : List ReqParam) : HOut :=
  match ensureHexParam (params.get? 0) with
  | .error e => { result := .error e, st := st, trace := [] }
  | .ok _ => { result := env.getFilterChangesResp, st := st, trace := [] }

/-- `_eth_getFilterLogs`: validate the filter id, then return the
polyfill's response unchanged. -/
def eth_getFilterLogs (env : RelayEnv) (st : ProviderState)
    (params : List ReqParam) : HOut :=
  match ensureHexParam (params.get? 0) with
  | .error e => { result := .error e, st := st, trace := [] }
  | .ok _ => { result := env.getFilterLogsResp, st := st, trace := [] }

/-- `_handleAsynchronousFilterMethods`: `some` outcome for the five filter
methods, `none` ("not handled here") otherwise. -/
def handleAsynchronousFilterMethods (env : RelayEnv) (st : ProviderState)
    (req : JSONRPCRequest) : Option HOut :=
  if req.method = "eth_newFilter" then some (eth_newFilter env st)
  else if req.method = "eth_newBlockFilter" then some (eth_newBlockFilter env st)
  else if req.method = "eth_newPendingTransactionFilter" then
    some (eth_newPendingTransactionFilter env st)
  else if req.method = "eth_getFilterChanges" then
    some (eth_getFilterChanges env st req.params)
  else if req.method = "eth_getFilterLogs" then
    some (eth_getFilterLogs env st req.params)
  else none

/-- The remote RPC fallback: one HTTP POST of the request to the
configured endpoint. A transport/parse rejection propagates; a falsy
parsed body throws `ProviderError("unexpected response")`; a body with a
truthy error field throws `ProviderError(error.message || "RPC Error",
error.code, error.data)`; any other body resolves as-is. No retry. -/
def fetchFallback (env : RelayEnv) (st : ProviderState) (req : JSONRPCRequest) : HOut :=
  let tr := [Eff.fetchRemote st.jsonRpcUrl req.method]
  match env.fetchResp with
  | .networkFailure e => { result := .error e, st := st, trace := tr }
  | .parsed none =>
      { result := .error { message := "unexpected response" }, st := st, trace := tr }
  | .parsed (some resp) =>
      match resp.error with
      | some eo =>
          { result := .error
              { message := if eo.message = "" then "RPC Error" else eo.message,
                code := eo.code, data := eo.data },
            st := st, trace := tr }
      | none => { result := .ok resp, st := st, trace := tr }

/-- `_handleAsynchronousMethods`: the relay-backed method table, falling
through to the remote RPC fallback for any other method. -/
def handleAsynchronousMethods (env : RelayEnv) (st : ProviderState)
    (req : JSONRPCRequest) : HOut :=
  if req.method = "eth_requestAccounts" then eth_requestAccounts env st
  else if req.method = "eth_sign" then eth_sign env st req.params
  else if req.method = "eth_ecRecover" then eth_ecRecover env st req.params
  else if req.method = "personal_sign" then personal_sign env st req.params
  else if req.method = "personal_ecRecover" then personal_ecRecover env st req.params
  else if req.method = "eth_signTransaction" then eth_signTransaction env st req.params
  else if req.method = "eth_sendRawTransaction" then eth_sendRawTransaction env st req.params
  else if req.method = "eth_sendTransaction" then eth_sendTransaction env st req.params
  else fetchFallback env st req

/-- The message of the error `_sendRequest` throws for a method with no
defined synchronous result. -/
def syncUnsupportedMessage (m : String) : String :=
  "WalletLink does not support calling " ++ m ++
    (" synchronously without a callback. Please provide a callback " ++
     "parameter to call " ++ m ++ (" " ++ ("asynchronously" ++ ".")))

/-- The `SynchronousUnsupported` error (a plain `Error`, no code). -/
def syncUnsupportedError (m : String) : JSError :=
  { message := syncUnsupportedMessage m }

/-- `_sendRequest`: the synchronous single-call surface. Runs the
synchronous table; an `undefined` result throws the
`SynchronousUnsupported` error naming the method, a defined result is
wrapped in a response under the request's id. -/
def sendRequest (env : RelayEnv) (st : ProviderState) (req : JSONRPCRequest) :
    Except JSError JSONRPCResponse :=
  match handleSynchronousMethods env st req with
  | .error e => .error e
  | .ok none => .error (syncUnsupportedError req.method)
  | .ok (some v) => .ok { id := req.id, result := some v }

/-- `_sendRequestAsync`: try the synchronous table (a thrown error
rejects, a defined result resolves under the request's id), then the
filter table, then the relay table / remote fallback; in the latter two
cases the handler's response has its id overwritten by the request's id
(`{ ...res, id: request.id }`). -/
def sendRequestAsync (env : RelayEnv) (st : ProviderState) (req : JSONRPCRequest) : HOut :=
  match handleSynchronousMethods env st req with
  | .error e => { result := .error e, st := st, trace := [] }
  | .ok (some v) =>
      { result := .ok { id := req.id, result := some v }, st := st, trace := [] }
  | .ok none =>
      match handleAsynchronousFilterMethods env st req with
      | some out =>
          { out with result := out.result.map (fun r => { r with id := req.id }) }
      | none =>
          let out := handleAsynchronousMethods env st req
          { out with result := out.result.map (fun r => { r with id := req.id }) }

/-- `_sendMultipleRequestsAsync`: `Promise.all` over the element calls —
results in input order, first rejection rejects the aggregate. The
elements all start from the same provider state, as they do in the
source where the promises are created in one synchronous pass. -/
def sendMultipleRequestsAsync (env : RelayEnv) (st : ProviderState)
    (reqs : List JSONRPCRequest) : Except JSError (List JSONRPCResponse) :=
  exceptMapList (fun r => (sendRequestAsync env st r).result) reqs

/-- `sendAsync` with an array: the callback observes either
`(null, responses)` or `(error, null)`. -/
def sendAsyncBatch (env : RelayEnv) (st : ProviderState)
    (reqs : List JSONRPCRequest) : Option JSError × Option (List JSONRPCResponse) :=
  match sendMultipleRequestsAsync env st reqs with
  | .ok rs => (none, some rs)
  | .error e => (some e, none)

/-- `enable()`: short-circuit to the cached list when non-empty,
otherwise issue an `eth_requestAccounts` request through the
asynchronous path and unwrap its result value. -/
def enable (env : RelayEnv) (st : ProviderState) :
    Except JSError (Option RespValue) × ProviderState × List Eff :=
  if st.addresses.length > 0 then
    (.ok (some (.strList st.addresses)), st, [])
  else
    let out := sendRequestAsync env st
      { id := 1, method := "eth_requestAccounts", params := [] }
    (out.result.map (fun r => r.result), out.st, out.trace)

/-- A valid, already-normalized test address (40 hex digits). -/
def addrA : String := "0xaaaaaaaaaaaaaaaaaaaaaaaaaaaaaaaaaaaaaaaa"

/-- A second valid test address. -/
def addrB : String := "0xbbbbbbbbbbbbbbbbbbbbbbbbbbbbbbbbbbbbbbbb"

/-- A relay rejection matching the denial pattern. -/
def deniedErr : JSError := { message := "User rejected request" }

/-- A relay rejection with an unrelated message. -/
def otherErr : JSError := { message := "network exploded" }

/-- An environment where every relay call rejects with `deniedErr`. -/
def envDenyW : RelayEnv :=
  { requestAccountsResp := .error deniedErr,
    signMessageResp := .error deniedErr,
    signTxResp := .error deniedErr,
    signAndSubmitResp := .error deniedErr }

/-- An environment where every relay call rejects with `otherErr`. -/
def envOtherW : RelayEnv :=
  { requestAccountsResp := .error otherErr,
    signMessageResp := .error otherErr,
    signTxResp := .error otherErr,
    signAndSubmitResp := .error otherErr }

/-- A method outside the synchronous table yields no defined synchronous
result. -/
theorem handleSync_of_not_mem (env : RelayEnv) (st : ProviderState)
    (req : JSONRPCRequest) (h : req.method ∉ syncMethods) :
    handleSynchronousMethods env st req = .ok none := by
  simp only [syncMethods, List.mem_cons, List.not_mem_nil, or_false, not_or] at h
  obtain ⟨h1, h2, h3, h4⟩ := h
  simp [handleSynchronousMethods, h1, h2, h3, h4]

/-- A method outside the filter table is not handled by the filter
dispatcher. -/
theorem handleFilter_of_not_mem (env : RelayEnv) (st : ProviderState)
    (req : JSONRPCRequest) (h : req.method ∉ filterMethods) :
    handleAsynchronousFilterMethods env st req = none := by
  simp only [filterMethods, List.mem_cons, List.not_mem_nil, or_false, not_or] at h
  obtain ⟨h1, h2, h3, h4, h5⟩ := h
  simp [handleAsynchronousFilterMethods, h1, h2, h3, h4, h5]

/-- A method outside the relay table falls through to the remote RPC
fallback. -/
theorem handleAsync_of_not_mem (env : RelayEnv) (st : ProviderState)
    (req : JSONRPCRequest) (h : req.method ∉ relayMethods) :
    handleAsynchronousMethods env st req = fetchFallback env st req := by
  simp only [relayMethods, List.mem_cons, List.not_mem_nil, or_false, not_or] at h
  obtain ⟨h1, h2, h3, h4, h5, h6, h7, h8⟩ := h
  simp [handleAsynchronousMethods, h1, h2, h3, h4, h5, h6, h7, h8]

/-- An `Except.map` producing a success comes from a success. -/
theorem except_map_eq_ok {ε α β : Type} (f : α → β) (e : Except ε α) (b : β)
    (h : e.map f = .ok b) : ∃ a, e = .ok a ∧ b = f a := by
  cases e with
  | error err => simp [Except.map] at h
  | ok a =>
      refine ⟨a, rfl, ?_⟩
      simpa [Except.map] using h.symm

/-- A successful `exceptMapList` is the pointwise, order-preserving image
of its input. -/
theorem exceptMapList_ok_forall₂ {α β ε : Type} (f : α → Except ε β) :
    ∀ (l : List α) (out : List β), exceptMapList f l = .ok out →
      List.Forall₂ (fun a b => f a = .ok b) l out := by
  intro l
  induction l with
  | nil =>
      intro out h
      simp only [exceptMapList] at h
      injection h with h
      subst h
      exact List.Forall₂.nil
  | cons a as ih =>
      intro out h
      cases hf : f a with
      | error e => simp [exceptMapList, hf] at h
      | ok b =>
          cases hrest : exceptMapList f as with
          | error e => simp [exceptMapList, hf, hrest] at h
          | ok bs =>
              simp only [exceptMapList, hf, hrest] at h
              injection h with h
              subst h
              exact List.Forall₂.cons hf (ih bs hrest)

/-- `exceptMapList` fails with the error of the first failing element. -/
theorem exceptMapList_append_error {α β ε : Type} (f : α → Except ε β)
    (pre : List α) (a0 : α) (post : List α) (e : ε)
    (hpre : ∀ a ∈ pre, ∃ b, f a = .ok b) (h0 : f a0 = .error e) :
    exceptMapList f (pre ++ a0 :: post) = .error e := by
  induction pre with
  | nil => simp [exceptMapList, h0]
  | cons a as ih =>
      obtain ⟨b, hb⟩ := hpre a (List.mem_cons_self a as)
      have hrest := ih (fun x hx => hpre x (List.mem_cons_of_mem a hx))
      simp [exceptMapList, hb, hrest]

/-- A defined selected address is a non-empty head of the address list. -/
theorem selectedAddress_eq_some (st : ProviderState) (a : String)
    (h : selectedAddress st = some a) :
    ∃ rest, st.addresses = a :: rest ∧ a ≠ "" := by
  unfold selectedAddress at h
  cases hl : st.addresses with
  | nil => rw [hl] at h; simp at h
  | cons x xs =>
      rw [hl] at h
      simp only [List.head?] at h
      by_cases hx : x = ""
      · simp [hx] at h
      · simp only [hx, if_false] at h
        injection h with h
        subst h
        exact ⟨xs, rfl, hx⟩

/-- A validated address is never the empty string. -/
theorem ensureAddressStr_ok_ne_empty (s r : String)
    (h : ensureAddressStr s = .ok r) : r ≠ "" := by
  simp only [ensureAddressStr] at h
  split at h
  · injection h with h
    intro hc
    rw [← h] at hc
    have := congrArg String.data hc
    simp at this
  · simp at h

/-- `ensureAddressPrim` success comes from a string and is non-empty. -/
theorem ensureAddressOptPrim_ok_ne_empty (o : Option Prim) (r : String)
    (h : ensureAddressOptPrim o = .ok r) : r ≠ "" := by
  cases o with
  | none => simp [ensureAddressOptPrim] at h
  | some p =>
      cases p with
      | vStr s => exact ensureAddressStr_ok_ne_empty s r h
      | vNull => simp [ensureAddressOptPrim, ensureAddressPrim] at h
      | vBool b => simp [ensureAddressOptPrim, ensureAddressPrim] at h
      | vNum n => simp [ensureAddressOptPrim, ensureAddressPrim] at h

/-- C1: a request whose method is outside the synchronous table
{eth_accounts, eth_coinbase, net_version, eth_uninstallFilter} — in
particular every relay-table and filter-table method — fails on the
synchronous single-call surface with the `SynchronousUnsupported` error,
whose message names the offending method and tells the caller to use the
asynchronous surface; a request whose method is in the table gets back a
response carrying that method's result under the request's id. -/
theorem c1_sync_surface_classification
    (env1 : RelayEnv) (st1 : ProviderState) (req1 : JSONRPCRequest)
    (h1 : req1.method ∉ syncMethods)
    (env2 : RelayEnv) (st2 : ProviderState) (req2 : JSONRPCRequest) (v : RespValue)
    (h2m : req2.method ∈ syncMethods)
    (h2 : handleSynchronousMethods env2 st2 req2 = .ok (some v)) :
    sendRequest env1 st1 req1 = .error (syncUnsupportedError req1.method)
    ∧ (∃ x y, syncUnsupportedMessage req1.method = x ++ req1.method ++ y)
    ∧ (∃ x y, syncUnsupportedMessage req1.method = x ++ "asynchronously" ++ y)
    ∧ (∀ m ∈ relayMethods ++ filterMethods, m ∉ syncMethods)
    ∧ sendRequest env2 st2 req2 = .ok { id := req2.id, result := some v } := by
  refine ⟨?_, ?_, ?_, by decide, ?_⟩
  · rw [sendRequest, handleSync_of_not_mem env1 st1 req1 h1]
  · exact ⟨"WalletLink does not support calling ",
      (" synchronously without a callback. Please provide a callback " ++
       "parameter to call " ++ req1.method ++ (" " ++ ("asynchronously" ++ "."))), rfl⟩
  · refine ⟨"WalletLink does not support calling " ++ req1.method ++
      (" synchronously without a callback. Please provide a callback " ++
       "parameter to call " ++ req1.method ++ " "), ".", ?_⟩
    simp only [syncUnsupportedMessage, String.append_assoc]
  · rw [sendRequest, h2]

/-- Witness for C1 at concrete inputs: `eth_sendTransaction` (relay
table) through the synchronous surface throws, and `eth_accounts`
returns the address list. -/
theorem c1_sync_surface_classification_witness :
    sendRequest {} {} { id := 3, method := "eth_sendTransaction" } =
      .error (syncUnsupportedError "eth_sendTransaction")
    ∧ sendRequest {} { addresses := [addrA] } { id := 4, method := "eth_accounts" } =
      .ok { id := 4, result := some (.strList [addrA]) } := by
  have h := c1_sync_surface_classification {} {} { id := 3, method := "eth_sendTransaction" }
    (by decide) {} { addresses := [addrA] } { id := 4, method := "eth_accounts" }
    (.strList [addrA]) (by decide) (by decide)
  exact ⟨h.1, h.2.2.2.2⟩

/-- C2: with a non-empty cached address list, `eth_requestAccounts`
(directly, through the asynchronous dispatch, and through `enable`)
resolves immediately with the cached list, leaves the state unchanged,
and performs no relay interaction: no linking window is opened and the
relay's requestEthereumAccounts is never called. -/
theorem c2_request_accounts_short_circuit
    (env : RelayEnv) (st : ProviderState) (i : Int) (ps : List ReqParam)
    (h : st.addresses ≠ []) :
    (eth_requestAccounts env st).result =
      .ok { id := 0, result := some (.strList st.addresses) }
    ∧ (eth_requestAccounts env st).st = st
    ∧ (eth_requestAccounts env st).trace = []
    ∧ Eff.openLinkWindow ∉ (eth_requestAccounts env st).trace
    ∧ Eff.relayRequestAccounts st.appName ∉ (eth_requestAccounts env st).trace
    ∧ (sendRequestAsync env st { id := i, method := "eth_requestAccounts", params := ps }).result
        = .ok { id := i, result := some (.strList st.addresses) }
    ∧ (sendRequestAsync env st { id := i, method := "eth_requestAccounts", params := ps }).st = st
    ∧ (sendRequestAsync env st { id := i, method := "eth_requestAccounts", params := ps }).trace = []
    ∧ enable env st = (.ok (some (.strList st.addresses)), st, []) := by
  have hlen : 0 < st.addresses.length := List.length_pos.mpr h
  have hra : eth_requestAccounts env st =
      { result := .ok { id := 0, result := some (.strList st.addresses) },
        st := st, trace := [] } := by
    rw [eth_requestAccounts, if_pos hlen]
  have hasync : sendRequestAsync env st
      { id := i, method := "eth_requestAccounts", params := ps } =
      { result := .ok { id := i, result := some (.strList st.addresses) },
        st := st, trace := [] } := by
    rw [sendRequestAsync]
    rw [handleSync_of_not_mem env st _ (by simp [syncMethods])]
    rw [handleFilter_of_not_mem env st _ (by simp [filterMethods])]
    rw [show handleAsynchronousMethods env st
          { id := i, method := "eth_requestAccounts", params := ps } =
        eth_requestAccounts env st from rfl]
    rw [hra]
    rfl
  refine ⟨by rw [hra], by rw [hra], by rw [hra], by rw [hra]; simp,
    by rw [hra]; simp, by rw [hasync], by rw [hasync], by rw [hasync], ?_⟩
  rw [enable, if_pos hlen]

/-- Witness for C2 at a concrete state with one cached address. -/
theorem c2_request_accounts_short_circuit_witness :
    (eth_requestAccounts {} { addresses := [addrA] }).result =
      .ok { id := 0, result := some (.strList [addrA]) }
    ∧ (eth_requestAccounts {} { addresses := [addrA] }).trace = []
    ∧ enable {} { addresses := [addrA] } =
      (.ok (some (.strList [addrA])), { addresses := [addrA] }, []) := by
  have h := c2_request_accounts_short_circuit {} { addresses := [addrA] } 1 []
    (by decide)
  exact ⟨h.1, h.2.2.1, h.2.2.2.2.2.2.2.2⟩

/-- C10: `eth_coinbase` called through the synchronous single-call
surface while the address list is empty succeeds with result `null`
(rather than failing with `SynchronousUnsupported`), because the handler
returns `null`, not `undefined`, and only an undefined result triggers
the synchronous-unsupported error. -/
theorem c10_coinbase_sync_null
    (env : RelayEnv) (st : ProviderState) (i : Int) (ps : List ReqParam)
    (h : st.addresses = []) :
    sendRequest env st { id := i, method := "eth_coinbase", params := ps } =
      .ok { id := i, result := some (.prim .vNull) } := by
  simp [sendRequest, handleSynchronousMethods, eth_coinbase, selectedAddress, h]

/-- Witness for C10 at a concrete empty-address state. -/
theorem c10_coinbase_sync_null_witness :
    sendRequest {} {} { id := 11, method := "eth_coinbase" } =
      .ok { id := 11, result := some (.prim .vNull) } :=
  c10_coinbase_sync_null {} {} 11 [] rfl

/-- C5: setting a list of valid addresses succeeds and `getAddresses`
then returns the equal, order-preserving list of their normalizations;
an invalid entry anywhere makes the whole call fail with that entry's
error, leaving the previously stored list (and all state) unchanged —
no partial acceptance. -/
theorem c5_setAddresses_roundtrip_atomic
    (env1 : RelayEnv) (st1 : ProviderState) (p1 : Bool)
    (input1 : List String) (addrs : List String)
    (h1 : exceptMapList ensureAddressStr input1 = .ok addrs)
    (env2 : RelayEnv) (st2 : ProviderState) (p2 : Bool)
    (input2 : List String) (e : JSError)
    (h2 : exceptMapList ensureAddressStr input2 = .error e) :
    (setAddressesCall env1 st1 input1 p1).1 = .ok ()
    ∧ eth_accounts (setAddressesCall env1 st1 input1 p1).2.1 = addrs
    ∧ List.Forall₂ (fun v a => ensureAddressStr v = .ok a) input1 addrs
    ∧ setAddressesCall env2 st2 input2 p2 = (.error e, st2, [])
    ∧ eth_accounts (setAddressesCall env2 st2 input2 p2).2.1 = eth_accounts st2 := by
  refine ⟨?_, ?_, exceptMapList_ok_forall₂ _ _ _ h1, ?_, ?_⟩
  · simp [setAddressesCall, setAddresses, h1]
  · simp only [setAddressesCall, setAddresses, h1, eth_accounts]
    split <;> rfl
  · simp [setAddressesCall, setAddresses, h2]
  · simp [setAddressesCall, setAddresses, h2]

/-- Witness for C5: a valid upper-case list round-trips normalized; a
list with an invalid second entry fails whole, leaving prior state. -/
theorem c5_setAddresses_roundtrip_atomic_witness :
    (setAddressesCall {} { addresses := [addrB] }
        ["0xAAAAAAAAAAAAAAAAAAAAAAAAAAAAAAAAAAAAAAAA"] true).1 = .ok ()
    ∧ eth_accounts (setAddressesCall {} { addresses := [addrB] }
        ["0xAAAAAAAAAAAAAAAAAAAAAAAAAAAAAAAAAAAAAAAA"] true).2.1 = [addrA]
    ∧ setAddressesCall {} { addresses := [addrB] } [addrA, "bogus"] true =
      (.error { message := "Invalid Ethereum address" }, { addresses := [addrB] }, []) := by
  have h := c5_setAddresses_roundtrip_atomic
    {} { addresses := [addrB] } true ["0xAAAAAAAAAAAAAAAAAAAAAAAAAAAAAAAAAAAAAAAA"] [addrA]
    (by decide)
    {} { addresses := [addrB] } true [addrA, "bogus"]
    { message := "Invalid Ethereum address" } (by decide)
  exact ⟨h.1, h.2.1, h.2.2.2.1⟩

/-- C6: a successful `setAddresses` with persistence requested survives
a storage write failure: the call still completes, the in-memory list is
updated, the stored value is simply not written, and the
"accountsChanged" notification is still emitted. -/
theorem c6_persist_failure_swallowed
    (env : RelayEnv) (st : ProviderState) (input addrs : List String)
    (hfail : env.storageWriteFails = true)
    (h : exceptMapList ensureAddressStr input = .ok addrs) :
    (setAddressesCall env st input true).1 = .ok ()
    ∧ (setAddressesCall env st input true).2.1.addresses = addrs
    ∧ (setAddressesCall env st input true).2.1.storage = st.storage
    ∧ Eff.emitAccountsChanged addrs ∈ (setAddressesCall env st input true).2.2 := by
  simp [setAddressesCall, setAddresses, h, hfail]

/-- Witness for C6 with a failing storage medium. -/
theorem c6_persist_failure_swallowed_witness :
    (setAddressesCall { storageWriteFails := true } {} [addrA] true).1 = .ok ()
    ∧ (setAddressesCall { storageWriteFails := true } {} [addrA] true).2.1.addresses = [addrA]
    ∧ Eff.emitAccountsChanged [addrA] ∈
        (setAddressesCall { storageWriteFails := true } {} [addrA] true).2.2 := by
  have h := c6_persist_failure_swallowed { storageWriteFails := true } {} [addrA] [addrA]
    rfl (by decide)
  exact ⟨h.1, h.2.1, h.2.2.2⟩

/-- C4: transaction normalization. With a selected (hence authorized)
address, the input `{to, value: "0x5"}` yields weiValue 5, empty data,
absent nonce and the provider's chain id; with no usable from-address
(no explicit field, no selected address) it fails with the
missing-field error; with a resolved from-address outside the
authorized list it fails with the unauthorized-address error. -/
theorem c4_prepare_transaction_params
    (st1 : ProviderState) (a : String) (hsel : selectedAddress st1 = some a)
    (st2 : ProviderState) (tx2 : TxInput)
    (h2f : optTruthy tx2.fromV = false) (h2a : st2.addresses = [])
    (st3 : ProviderState) (tx3 : TxInput) (addr : String)
    (h3t : optTruthy tx3.fromV = true)
    (h3v : ensureAddressOptPrim tx3.fromV = .ok addr)
    (h3m : addr ∉ st3.addresses) :
    prepareTransactionParams st1
      { toV := some (.vStr addrB), valueV := some (.vStr "0x5") } =
      .ok { fromAddress := a, toAddress := some addrB, weiValue := 5, data := "",
            nonce := none, gasPriceInWei := none, gasLimit := none,
            chainId := st1.chainId }
    ∧ prepareTransactionParams st2 tx2 =
        .error { message := "Ethereum address is unavailable" }
    ∧ prepareTransactionParams st3 tx3 =
        .error { message := "Unknown Ethereum address" } := by
  refine ⟨?_, ?_, ?_⟩
  · obtain ⟨rest, hl, hne⟩ := selectedAddress_eq_some st1 a hsel
    have hmem : a ∈ st1.addresses := by rw [hl]; exact List.mem_cons_self a rest
    have hbne : addrB ≠ "" := by decide
    have hto : ensureAddressOptPrim (some (.vStr addrB)) = .ok addrB := by decide
    have hval : ensureBNOptPrim (some (.vStr "0x5")) = .ok 5 := by decide
    simp [prepareTransactionParams, optTruthy, notNullish, truthyPrim, hsel, hne,
      hmem, hbne, hto, hval, Except.map]
  · simp [prepareTransactionParams, h2f, selectedAddress, h2a]
  · have hne : addr ≠ "" := ensureAddressOptPrim_ok_ne_empty tx3.fromV addr h3v
    simp [prepareTransactionParams, h3t, h3v, Except.map, hne, h3m]

/-- Witness for C4 at concrete states and transaction inputs. -/
theorem c4_prepare_transaction_params_witness :
    prepareTransactionParams { addresses := [addrA], chainId := 1 }
      { toV := some (.vStr addrB), valueV := some (.vStr "0x5") } =
      .ok { fromAddress := addrA, toAddress := some addrB, weiValue := 5, data := "",
            nonce := none, gasPriceInWei := none, gasLimit := none, chainId := 1 }
    ∧ prepareTransactionParams {} {} =
        .error { message := "Ethereum address is unavailable" }
    ∧ prepareTransactionParams { addresses := [addrA] }
        { fromV := some (.vStr addrB) } =
        .error { message := "Unknown Ethereum address" } := by
  have h := c4_prepare_transaction_params
    { addresses := [addrA], chainId := 1 } addrA (by decide)
    {} {} rfl rfl
    { addresses := [addrA] } { fromV := some (.vStr addrB) } addrB
    rfl (by decide) (by decide)
  exact h

/-- C3: for every denial-capable relay-backed method (request accounts,
sign message, personal-sign, sign transaction, sign-and-send
transaction), a relay rejection whose message contains "denied" or
"rejected" case-insensitively is remapped to the corresponding
UserDenied* provider error; a rejection with any other message
propagates unchanged; and the two UserDenied* codes are distinct. -/
theorem c3_denial_remapping
    (envD envU : RelayEnv) (errD errU : JSError)
    (hden : matchesDenialPattern errD.message = true)
    (hnot : matchesDenialPattern errU.message = false)
    (hD1 : envD.requestAccountsResp = .error errD)
    (hU1 : envU.requestAccountsResp = .error errU)
    (hD2 : envD.signMessageResp = .error errD)
    (hU2 : envU.signMessageResp = .error errU)
    (hD3 : envD.signTxResp = .error errD)
    (hU3 : envU.signTxResp = .error errU)
    (hD4 : envD.signAndSubmitResp = .error errD)
    (hU4 : envU.signAndSubmitResp = .error errU)
    (stU : ProviderState) (hstU : stU.addresses = [])
    (stA : ProviderState) (hstA : stA.addresses ≠ [])
    (psS : List ReqParam) (msgS addrS : String)
    (hS0 : ensureBufferParam psS[1]? = .ok msgS)
    (hS1 : ensureAddressParam psS[0]? = .ok addrS)
    (psP : List ReqParam) (msgP addrP : String)
    (hP0 : ensureBufferParam psP[0]? = .ok msgP)
    (hP1 : ensureAddressParam psP[1]? = .ok addrP)
    (psT : List ReqParam) (txp : EthereumTransactionParams)
    (hT : prepareTransactionParams stA (txInputOfParam psT[0]?) = .ok txp) :
    (eth_requestAccounts envD stU).result = .error userDeniedAccountsError
    ∧ (eth_requestAccounts envU stU).result = .error errU
    ∧ (eth_sign envD stA psS).result = .error userDeniedMessageSignatureError
    ∧ (eth_sign envU stA psS).result = .error errU
    ∧ (personal_sign envD stA psP).result = .error userDeniedMessageSignatureError
    ∧ (personal_sign envU stA psP).result = .error errU
    ∧ (eth_signTransaction envD stA psT).result = .error userDeniedTransactionSignatureError
    ∧ (eth_signTransaction envU stA psT).result = .error errU
    ∧ (eth_sendTransaction envD stA psT).result = .error userDeniedTransactionSignatureError
    ∧ (eth_sendTransaction envU stA psT).result = .error errU
    ∧ USER_DENIED_REQUEST_ACCOUNTS_CODE ≠ USER_DENIED_REQUEST_SIGNATURE_CODE := by
  have hlen : stA.addresses.length ≠ 0 :=
    fun hc => hstA (List.length_eq_zero.mp hc)
  refine ⟨?_, ?_, ?_, ?_, ?_, ?_, ?_, ?_, ?_, ?_, by decide⟩
  · simp [eth_requestAccounts, hstU, hD1, hden]
  · simp [eth_requestAccounts, hstU, hU1, hnot]
  · simp [eth_sign, hlen, hS0, hS1, hD2, hden]
  · simp [eth_sign, hlen, hS0, hS1, hU2, hnot]
  · simp [personal_sign, hlen, hP0, hP1, hD2, hden]
  · simp [personal_sign, hlen, hP0, hP1, hU2, hnot]
  · simp [eth_signTransaction, hlen, hT, hD3, hden]
  · simp [eth_signTransaction, hlen, hT, hU3, hnot]
  · simp [eth_sendTransaction, hlen, hT, hD4, hden]
  · simp [eth_sendTransaction, hlen, hT, hU4, hnot]

/-- Witness for C3: a "User rejected..." relay rejection is remapped for
request-accounts, sign and sign-and-send; an unrelated "network
exploded" rejection propagates verbatim. -/
theorem c3_denial_remapping_witness :
    (eth_requestAccounts envDenyW {}).result = .error userDeniedAccountsError
    ∧ (eth_sign envOtherW { addresses := [addrA] }
        [.prim (.vStr addrA), .prim (.vStr "0x1234")]).result = .error otherErr
    ∧ (eth_sendTransaction envDenyW { addresses := [addrA] } [.obj {}]).result =
      .error userDeniedTransactionSignatureError := by
  have h := c3_denial_remapping envDenyW envOtherW deniedErr otherErr
    (by decide) (by decide) rfl rfl rfl rfl rfl rfl rfl rfl
    {} rfl { addresses := [addrA] } (by decide)
    [.prim (.vStr addrA), .prim (.vStr "0x1234")] "1234" addrA
    (by decide) (by decide)
    [.prim (.vStr "0x1234"), .prim (.vStr addrA)] "1234" addrA
    (by decide) (by decide)
    [.obj {}]
    { fromAddress := addrA, toAddress := none, weiValue := 0, data := "",
      nonce := none, gasPriceInWei := none, gasLimit := none, chainId := 1 }
    (by decide)
  exact ⟨h.1, h.2.2.2.1, h.2.2.2.2.2.2.2.2.1⟩

/-- C7: a batch sent through the callback surface resolves all elements
in input order (Forall2 pairs each request with its own response) into a
single `(null, responses)` callback; if an element rejects, the callback
instead observes `(error-of-first-failing-element, null)` — no partial
result list. -/
theorem c7_batch_callback_all_or_nothing
    (env : RelayEnv) (st : ProviderState)
    (reqs : List JSONRPCRequest) (rs : List JSONRPCResponse)
    (h1 : sendMultipleRequestsAsync env st reqs = .ok rs)
    (env2 : RelayEnv) (st2 : ProviderState)
    (pre : List JSONRPCRequest) (req0 : JSONRPCRequest)
    (post : List JSONRPCRequest) (e : JSError)
    (hpre : ∀ r ∈ pre, ∃ resp, (sendRequestAsync env2 st2 r).result = .ok resp)
    (h0 : (sendRequestAsync env2 st2 req0).result = .error e) :
    sendAsyncBatch env st reqs = (none, some rs)
    ∧ List.Forall₂ (fun r resp => (sendRequestAsync env st r).result = .ok resp) reqs rs
    ∧ sendAsyncBatch env2 st2 (pre ++ req0 :: post) = (some e, none) := by
  have h1' : exceptMapList (fun r => (sendRequestAsync env st r).result) reqs = .ok rs := h1
  refine ⟨?_, exceptMapList_ok_forall₂ _ _ _ h1', ?_⟩
  · simp [sendAsyncBatch, h1]
  · have hall := exceptMapList_append_error
      (fun r => (sendRequestAsync env2 st2 r).result) pre req0 post e hpre h0
    simp [sendAsyncBatch, sendMultipleRequestsAsync, hall]

/-- Witness for C7: the spec's example batch [accounts-list,
network-version] resolves in order; a batch whose second element throws
(the unauthorized sign) yields `(error, null)`. -/
theorem c7_batch_callback_all_or_nothing_witness :
    sendAsyncBatch {} { addresses := [addrA], chainId := 1 }
      [{ id := 1, method := "eth_accounts" }, { id := 2, method := "net_version" }] =
      (none, some [{ id := 1, result := some (.strList [addrA]) },
                   { id := 2, result := some (.prim (.vStr "1")) }])
    ∧ sendAsyncBatch {} {}
      [{ id := 1, method := "net_version" }, { id := 2, method := "eth_sign" }] =
      (some unauthorizedError, none) := by
  have h := c7_batch_callback_all_or_nothing {} { addresses := [addrA], chainId := 1 }
    [{ id := 1, method := "eth_accounts" }, { id := 2, method := "net_version" }]
    [{ id := 1, result := some (.strList [addrA]) },
     { id := 2, result := some (.prim (.vStr "1")) }]
    (by decide)
    {} {} [{ id := 1, method := "net_version" }] { id := 2, method := "eth_sign" }
    [] unauthorizedError
    (by
      intro r hr
      rw [List.mem_singleton] at hr
      subst hr
      exact ⟨{ id := 1, result := some (.prim (.vStr "1")) }, by decide⟩)
    (by decide)
  exact ⟨h.1, h.2.2⟩

/-- C8 counterexample to the claim as stated: a parsed body whose error
field has message "" and code 5 makes the call fail with message
"RPC Error" — not with that error field's (empty) message — because the
source substitutes a fallback for a falsy message. -/
theorem c8_remote_fallback_counterexample :
    (handleAsynchronousMethods
        { fetchResp := .parsed (some { id := 1, error := some { code := some 5 } }) }
        {} { id := 9, method := "eth_blockNumber" }).result =
      .error { message := "RPC Error", code := some 5 }
    ∧ ("RPC Error" : String) ≠ "" := by
  exact ⟨by decide, by decide⟩

/-- C8 (amended): a request forwarded to the remote RPC fallback fails
with the protocol error on an empty/absent parsed body; fails with the
body's error code and data — and with its message when that is
non-empty, "RPC Error" being substituted for an empty one — when the
body carries an error field; and otherwise resolves with the parsed
response as-is, with exactly one fetch performed (no retry). -/
theorem c8_remote_fallback_amended
    (st : ProviderState) (req : JSONRPCRequest) (hm : req.method ∉ relayMethods)
    (env1 : RelayEnv) (h1 : env1.fetchResp = .parsed none)
    (env2 : RelayEnv) (resp2 : JSONRPCResponse) (eo : RpcErrorObj)
    (h2 : env2.fetchResp = .parsed (some resp2)) (he : resp2.error = some eo)
    (env3 : RelayEnv) (resp3 : JSONRPCResponse)
    (h3 : env3.fetchResp = .parsed (some resp3)) (he3 : resp3.error = none) :
    (handleAsynchronousMethods env1 st req).result =
      .error { message := "unexpected response" }
    ∧ (handleAsynchronousMethods env2 st req).result =
        .error { message := if eo.message = "" then "RPC Error" else eo.message,
                 code := eo.code, data := eo.data }
    ∧ (handleAsynchronousMethods env3 st req).result = .ok resp3
    ∧ (handleAsynchronousMethods env1 st req).trace =
        [Eff.fetchRemote st.jsonRpcUrl req.method]
    ∧ (handleAsynchronousMethods env3 st req).trace =
        [Eff.fetchRemote st.jsonRpcUrl req.method] := by
  refine ⟨?_, ?_, ?_, ?_, ?_⟩
  · rw [handleAsync_of_not_mem env1 st req hm]
    simp [fetchFallback, h1]
  · rw [handleAsync_of_not_mem env2 st req hm]
    simp [fetchFallback, h2, he]
  · rw [handleAsync_of_not_mem env3 st req hm]
    simp [fetchFallback, h3, he3]
  · rw [handleAsync_of_not_mem env1 st req hm]
    simp [fetchFallback, h1]
  · rw [handleAsync_of_not_mem env3 st req hm]
    simp [fetchFallback, h3, he3]

/-- Witness for C8 (amended) at concrete fetch outcomes for the
unrecognized method eth_blockNumber. -/
theorem c8_remote_fallback_amended_witness :
    (handleAsynchronousMethods { fetchResp := .parsed none } {}
        { id := 9, method := "eth_blockNumber" }).result =
      .error { message := "unexpected response" }
    ∧ (handleAsynchronousMethods
        { fetchResp := .parsed (some { id := 9, error := some { code := some 5, message := "boom" } }) }
        {} { id := 9, method := "eth_blockNumber" }).result =
      .error { message := "boom", code := some 5 }
    ∧ (handleAsynchronousMethods
        { fetchResp := .parsed (some { id := 9, result := some (.prim (.vNum 42)) }) }
        {} { id := 9, method := "eth_blockNumber" }).result =
      .ok { id := 9, result := some (.prim (.vNum 42)) } := by
  have h := c8_remote_fallback_amended {} { id := 9, method := "eth_blockNumber" }
    (by decide)
    { fetchResp := .parsed none } rfl
    { fetchResp := .parsed (some { id := 9, error := some { code := some 5, message := "boom" } }) }
    { id := 9, error := some { code := some 5, message := "boom" } }
    { code := some 5, message := "boom" } rfl rfl
    { fetchResp := .parsed (some { id := 9, result := some (.prim (.vNum 42)) }) }
    { id := 9, result := some (.prim (.vNum 42)) } rfl rfl
  exact ⟨h.1, by simpa using h.2.1, h.2.2.1⟩

/-- C9: every successful response delivered through the asynchronous
dispatch path carries the request's correlation id — the dispatcher
overwrites the handler's id — even though the internal handlers (here:
request-accounts and sign) construct their intermediate responses with
id 0. -/
theorem c9_response_id_correlation
    (env : RelayEnv) (st : ProviderState) (req : JSONRPCRequest)
    (resp : JSONRPCResponse)
    (h : (sendRequestAsync env st req).result = .ok resp)
    (env1 : RelayEnv) (st1 : ProviderState) (r1 : JSONRPCResponse)
    (h1 : (eth_requestAccounts env1 st1).result = .ok r1)
    (env2 : RelayEnv) (st2 : ProviderState) (ps2 : List ReqParam)
    (r2 : JSONRPCResponse)
    (h2 : (eth_sign env2 st2 ps2).result = .ok r2) :
    resp.id = req.id ∧ r1.id = 0 ∧ r2.id = 0 := by
  refine ⟨?_, ?_, ?_⟩
  · rw [sendRequestAsync] at h
    cases hs : handleSynchronousMethods env st req with
    | error e => rw [hs] at h; simp at h
    | ok o =>
        cases o with
        | some v =>
            rw [hs] at h
            simp only at h
            injection h with h
            rw [← h]
        | none =>
            rw [hs] at h
            cases hf : handleAsynchronousFilterMethods env st req with
            | some out =>
                rw [hf] at h
                simp only at h
                obtain ⟨r0, hr0, hresp⟩ := except_map_eq_ok _ _ _ h
                rw [hresp]
            | none =>
                rw [hf] at h
                simp only at h
                obtain ⟨r0, hr0, hresp⟩ := except_map_eq_ok _ _ _ h
                rw [hresp]
  · rw [eth_requestAccounts] at h1
    split at h1
    · simp only at h1
      injection h1 with h1
      rw [← h1]
    · simp only at h1
      split at h1
      · simp at h1
      · simp at h1
      · split at h1
        · simp at h1
        · injection h1 with h1
          rw [← h1]
  · rw [eth_sign] at h2
    split at h2
    · simp at h2
    · split at h2
      · simp at h2
      · split at h2
        · simp at h2
        · split at h2
          · injection h2 with h2
            rw [← h2]
          · simp at h2

/-- Witness for C9: a successful relay-backed sign call issued with
request id 42 comes back with id 42, the handlers' intermediate id 0
notwithstanding. -/
theorem c9_response_id_correlation_witness :
    ({ id := 42, result := some (.prim .vNull) } : JSONRPCResponse).id = 42
    ∧ ({ id := 0, result := some (.strList [addrA]) } : JSONRPCResponse).id = 0 := by
  have h := c9_response_id_correlation
    {} { addresses := [addrA] }
    { id := 42, method := "eth_sign",
      params := [.prim (.vStr addrA), .prim (.vStr "0x1234")] }
    { id := 42, result := some (.prim .vNull) }
    (by decide)
    {} { addresses := [addrA] } { id := 0, result := some (.strList [addrA]) }
    (by decide)
    {} { addresses := [addrA] }
    [.prim (.vStr addrA), .prim (.vStr "0x1234")]
    { id := 0, result := some (.prim .vNull) }
    (by decide)
  exact ⟨h.1, h.2.1⟩

end WalletLink
